import Mathlib

/- Shallow embedding of src/RRSP.py (the bracket engine is duplicated in
   src/RRSP1.py as GetCombinedBrackets).  Python floats are modelled as exact
   rationals, Python ints as integers.  Each definition mirrors one Python
   function or code block of the source; reported (rounded) values are kept
   separate from the raw simulation values, exactly as the code computes
   raw values and rounds them only when building each output row. -/

/- The library marks the rational-number operations irreducible, which keeps
them from evaluating inside concrete-input proofs; restore the default
transparency for this development, where exact rational evaluation of the
embedded program is the whole point. -/
attribute [local semireducible] Rat.add Rat.mul Rat.sub Rat.inv Rat.ofScientific

/-- 2026 federal bracket table, the literal fed_brackets in get_combined_brackets. -/
def fed_brackets : List (ℚ × ℚ) :=
  [(258482, 0.33), (181440, 0.29), (117045, 0.26), (58523, 0.205), (0, 0.14)]

/-- 2026 Quebec bracket table, the literal qc_brackets in get_combined_brackets. -/
def qc_brackets : List (ℚ × ℚ) :=
  [(132245, 0.2575), (108680, 0.24), (54345, 0.19), (0, 0.14)]

/-- Insertion into a descending-sorted list; helper for modelling Python
sorted(-, reverse=True). -/
def insertDesc (x : ℚ) : List ℚ → List ℚ
  | [] => [x]
  | y :: ys => if y ≤ x then x :: y :: ys else y :: insertDesc x ys

/-- Descending sort; models Python sorted(list(set(-)), reverse=True) applied
to the deduplicated threshold list. -/
def sortDesc : List ℚ → List ℚ
  | [] => []
  | x :: xs => insertDesc x (sortDesc xs)

/-- The inner scan of get_combined_brackets: walk the bracket list in its
given (descending-threshold) order and return the first rate whose threshold
is at most t; the Python loop leaves the initial 0.0 when nothing matches. -/
def rateAt : List (ℚ × ℚ) → ℚ → ℚ
  | [], _ => 0
  | (ft, fr) :: rest, t => if ft ≤ t then fr else rateAt rest t

/-- get_combined_brackets from src/RRSP.py: union of the two threshold sets,
sorted descending, each paired with fed rate times (1 - 0.165) plus the
Quebec rate, both rates taken at that threshold by the descending scan. -/
def get_combined_brackets : List (ℚ × ℚ) :=
  let all_thresholds := (fed_brackets.map Prod.fst ++ qc_brackets.map Prod.fst).dedup
  let sorted_thresholds := sortDesc all_thresholds
  sorted_thresholds.map fun t =>
    (t, rateAt fed_brackets t * (1 - 0.165) + rateAt qc_brackets t)

/-- get_marginal_tax_rate from src/RRSP.py: scan the schedule in list order
(descending thresholds) and return the first rate whose threshold is strictly
below the income; fall back to the last rate.  In the one-element case the
Python code returns that rate whether or not the comparison succeeds.  (On
the empty list Python would raise an IndexError; we return 0 there, and every
use in the program is on the nonempty combined schedule.) -/
def get_marginal_tax_rate (income : ℚ) : List (ℚ × ℚ) → ℚ
  | [] => 0
  | [p] => if income > p.1 then p.2 else p.2
  | p :: q :: rest => if income > p.1 then p.2 else get_marginal_tax_rate income (q :: rest)

/-- The keyword arguments of optimize_rrsp_strategy, with the Python default
values. -/
structure Config where
  current_year : ℤ := 2026
  start_earning_year : ℤ := 2020
  current_annual_income : ℚ := 25000
  full_time_start_year : ℤ := 2027
  expected_full_time_wage : ℚ := 85000
  wage_growth_rate : ℚ := 0.03
  employer_match_rate : ℚ := 0.05
  risk_free_rate : ℚ := 0.05
  retirement_income_target : ℚ := 60000
  savings_rate_gross : ℚ := 0.25
deriving DecidableEq

/-- The loop-carried state of the simulation: accumulated_room, rrsp_balance
and current_income_sim. -/
structure SimState where
  accumulated_room : ℚ
  rrsp_balance : ℚ
  current_income_sim : ℚ
deriving DecidableEq

/-- State of the waterfall (fill-down) loop over the brackets:
cash_remaining, current_taxable_income, total_user_contribution and
extra_contribution. -/
structure WRes where
  cash : ℚ
  taxable : ℚ
  total : ℚ
  extra : ℚ
deriving DecidableEq

/-- The waterfall loop of optimize_rrsp_strategy: for each bracket whose rate
strictly exceeds the retirement rate and whose threshold is below the current
taxable income, contribute the minimum of the income in the band, the room
remaining and the cash remaining (when positive), and stop early once cash or
room is exhausted. -/
def waterfall (retRate totalRoom : ℚ) : List (ℚ × ℚ) → WRes → WRes
  | [], s => s
  | (threshold, rate) :: rest, s =>
    if rate ≤ retRate then waterfall retRate totalRoom rest s
    else if s.taxable > threshold then
      let incomeInBand := s.taxable - threshold
      let roomRemaining := totalRoom - s.total
      let amt := min incomeInBand (min roomRemaining s.cash)
      let s' := if amt > 0 then
          WRes.mk (s.cash - amt) (s.taxable - amt) (s.total + amt) (s.extra + amt)
        else s
      if s'.cash ≤ 0 ∨ totalRoom - s'.total ≤ 0 then s'
      else waterfall retRate totalRoom rest s'
    else waterfall retRate totalRoom rest s

/-- The tax-savings display pass of optimize_rrsp_strategy: attribute each
dollar of the total contribution to the bracket it would have occupied and
sum dollars times rate, stopping once the contribution is used up. -/
def taxSavingsLoop : List (ℚ × ℚ) → ℚ → ℚ → ℚ → ℚ
  | [], _, _, acc => acc
  | (threshold, rate) :: rest, tempIncome, remaining, acc =>
    if tempIncome > threshold then
      let chunk := min (tempIncome - threshold) remaining
      let acc' := acc + chunk * rate
      let remaining' := remaining - chunk
      let tempIncome' := tempIncome - chunk
      if remaining' ≤ 0 then acc'
      else taxSavingsLoop rest tempIncome' remaining' acc'
    else taxSavingsLoop rest tempIncome remaining acc

/-- The income update at the top of the year loop: switch to the full-time
wage in full_time_start_year, grow by the wage growth rate in later years,
and keep the previous income before full_time_start_year. -/
def incomeUpdate (cfg : Config) (year : ℤ) (prev : ℚ) : ℚ :=
  if cfg.full_time_start_year ≤ year then
    if year = cfg.full_time_start_year then cfg.expected_full_time_wage
    else prev * (1 + cfg.wage_growth_rate)
  else prev

/-- The new contribution room generated in a year: 18 percent of income,
capped at the indexed annual maximum 33810 * 1.02 ^ (year - 2026). -/
def newRoom (year : ℤ) (income : ℚ) : ℚ :=
  let generated := income * 0.18
  let annualMax := 33810 * (1 + 0.02 : ℚ) ^ (year - 2026)
  if generated > annualMax then annualMax else generated

/-- One simulated year, raw (pre-rounding) values: one row of data plus the
internal quantities the code computes on the way (extra contribution and the
room snapshot), mirroring the body of the Python year loop. -/
structure YearRecord where
  year : ℤ
  income : ℚ
  startMarginalRate : ℚ
  totalUserContribution : ℚ
  extraContribution : ℚ
  matchContribution : ℚ
  totalInflow : ℚ
  totalRoomAvailable : ℚ
  roomLeft : ℚ
  taxSavings : ℚ
  strategy : String
deriving DecidableEq

/-- One iteration of the year loop of optimize_rrsp_strategy: income update,
room accrual, employer match, waterfall, clamp against total room, state
update, and the display computations. -/
def stepYear (cfg : Config) (brackets : List (ℚ × ℚ)) (retRate : ℚ)
    (year : ℤ) (st : SimState) : SimState × YearRecord :=
  let income := incomeUpdate cfg year st.current_income_sim
  let totalRoom := st.accumulated_room + newRoom year income
  let matchContribution := income * cfg.employer_match_rate
  let userBase := income * cfg.employer_match_rate
  let cash0 := income * cfg.savings_rate_gross - userBase
  let w := waterfall retRate totalRoom brackets (WRes.mk cash0 (income - userBase) userBase 0)
  let total := if w.total > totalRoom then totalRoom else w.total
  let roomLeft := totalRoom - total
  let inflow := total + matchContribution
  let balance := st.rrsp_balance * (1 + cfg.risk_free_rate) + inflow
  (SimState.mk roomLeft balance income,
   { year := year
     income := income
     startMarginalRate := get_marginal_tax_rate income brackets
     totalUserContribution := total
     extraContribution := w.extra
     matchContribution := matchContribution
     totalInflow := inflow
     totalRoomAvailable := totalRoom
     roomLeft := roomLeft
     taxSavings := taxSavingsLoop brackets income total 0
     strategy := if w.extra > 0 then "Optimized" else "Match + Hold" })

/-- The year loop: one stepYear per year of
range(current_year, full_time_start_year + 10 + 1). -/
def runYears (cfg : Config) (brackets : List (ℚ × ℚ)) (retRate : ℚ) :
    ℕ → ℤ → SimState → List YearRecord
  | 0, _, _ => []
  | n + 1, year, st =>
    let p := stepYear cfg brackets retRate year st
    p.2 :: runYears cfg brackets retRate n (year + 1) p.1

/-- retirement_tax_rate as computed once at the top of
optimize_rrsp_strategy: the marginal-rate lookup at the retirement income
target against the combined schedule. -/
def retirement_tax_rate (cfg : Config) : ℚ :=
  get_marginal_tax_rate cfg.retirement_income_target get_combined_brackets

/-- Number of iterations of range(current_year, full_time_start_year + 11). -/
def numYears (cfg : Config) : ℕ :=
  (cfg.full_time_start_year + 10 + 1 - cfg.current_year).toNat

/-- The state before the first year: past room of
(15000 * 0.18) * (current_year - start_earning_year), zero balance, and the
current annual income. -/
def initState (cfg : Config) : SimState :=
  SimState.mk (15000 * 0.18 * ((cfg.current_year - cfg.start_earning_year : ℤ) : ℚ))
    0 cfg.current_annual_income

/-- The raw per-year records produced by optimize_rrsp_strategy before the
rounding applied when each dict row is appended. -/
def simRecords (cfg : Config) : List YearRecord :=
  runYears cfg get_combined_brackets (retirement_tax_rate cfg)
    (numYears cfg) cfg.current_year (initState cfg)

/-- Python round(x) on an exact value: nearest integer, ties to even. -/
def pyRound (x : ℚ) : ℚ :=
  let n : ℤ := Int.floor x
  let frac := x - n
  if frac < 1 / 2 then n
  else if 1 / 2 < frac then n + 1
  else if n % 2 = 0 then n else n + 1

/-- Python round(x, 1): one decimal place, ties to even. -/
def pyRound1 (x : ℚ) : ℚ := pyRound (x * 10) / 10

/-- One row of the returned DataFrame: the dict literal appended to data in
optimize_rrsp_strategy, with the rounding the code applies at that point.
The marginal rate is reported as a percentage rounded to one decimal. -/
structure ReportedRow where
  year : ℤ
  income : ℚ
  marginalRatePct : ℚ
  contribution : ℚ
  employerMatch : ℚ
  totalInvested : ℚ
  totalRoomAvailable : ℚ
  rrspRoomLeft : ℚ
  taxSavings : ℚ
  strategy : String
deriving DecidableEq

/-- Build the appended dict row from the raw year values.  Note the source
reports the employer match as round(match_contribution * 0.05), with a
literal 0.05 factor on top of the match itself. -/
def reportRow (r : YearRecord) : ReportedRow :=
  { year := r.year
    income := pyRound r.income
    marginalRatePct := pyRound1 (r.startMarginalRate * 100)
    contribution := pyRound r.totalUserContribution
    employerMatch := pyRound (r.matchContribution * 0.05)
    totalInvested := pyRound r.totalInflow
    totalRoomAvailable := pyRound r.totalRoomAvailable
    rrspRoomLeft := pyRound r.roomLeft
    taxSavings := pyRound r.taxSavings
    strategy := r.strategy }

/-- optimize_rrsp_strategy: the full simulation output, one reported row per
simulated year. -/
def optimize_rrsp_strategy (cfg : Config) : List ReportedRow :=
  (simRecords cfg).map reportRow

/-- The invocation at the bottom of src/RRSP.py (unspecified arguments keep
their Python defaults). -/
def cfgScript : Config :=
  { current_year := 2026
    start_earning_year := 2020
    current_annual_income := 25000
    full_time_start_year := 2030
    expected_full_time_wage := 80000
    wage_growth_rate := 0.04
    retirement_income_target := 55000
    savings_rate_gross := 0.25 }

/-- The end-to-end scenario of the spec: income held flat at 85000 (start at
85000, full-time wage 85000, zero growth), employer match 5 percent,
retirement income target 60000. -/
def cfg85 : Config :=
  { current_annual_income := 85000
    expected_full_time_wage := 85000
    wage_growth_rate := 0
    employer_match_rate := 0.05
    retirement_income_target := 60000
    savings_rate_gross := 0.25 }

/-- A configuration the spec calls invalid: zero savings_rate_gross. -/
def cfgBad : Config := { savings_rate_gross := 0 }

/-- A configuration with a savings rate below the employer match rate. -/
def cfgLowSavings : Config := { savings_rate_gross := 0.01 }

/-- A configuration with a negative income trajectory. -/
def cfgNeg : Config :=
  { current_year := 2026
    start_earning_year := 2026
    current_annual_income := -1000
    full_time_start_year := 2027
    expected_full_time_wage := -1000
    wage_growth_rate := 0
    risk_free_rate := 0 }

/-- Spec-side reading of the bracket-engine rule, for comparison with the
scan the code performs: the rate of the highest-threshold bracket whose
threshold is at most t (0 when no bracket applies). -/
def highestApplicableRate (brackets : List (ℚ × ℚ)) (t : ℚ) : ℚ :=
  match brackets.filter (fun p => decide (p.1 ≤ t)) with
  | [] => 0
  | p :: ps => (ps.foldl (fun best q => if best.1 < q.1 then q else best) p).2

/-- The year loop produces exactly one record per year of the range. -/
theorem runYears_length (cfg : Config) (b : List (ℚ × ℚ)) (r : ℚ) :
    ∀ (n : ℕ) (y : ℤ) (st : SimState), (runYears cfg b r n y st).length = n
  | 0, _, _ => rfl
  | n + 1, y, st => by
    simp only [runYears, List.length_cons, runYears_length cfg b r n]

/-- The waterfall moves money from cash to the contribution total: their sum
is preserved across the loop. -/
theorem waterfall_total_add_cash (r tr : ℚ) :
    ∀ (l : List (ℚ × ℚ)) (s : WRes),
      (waterfall r tr l s).total + (waterfall r tr l s).cash = s.total + s.cash := by
  intro l
  induction l with
  | nil => intro s; simp [waterfall]
  | cons p rest ih =>
    intro s
    obtain ⟨t, rate⟩ := p
    simp only [waterfall]
    split_ifs with h1 h2 h3 h4 h5
    · exact ih s
    · dsimp only
      ring
    · rw [ih]
      dsimp only
      ring
    · rfl
    · exact ih s
    · exact ih s

/-- The waterfall never drives the remaining cash negative. -/
theorem waterfall_cash_nonneg (r tr : ℚ) :
    ∀ (l : List (ℚ × ℚ)) (s : WRes), 0 ≤ s.cash → 0 ≤ (waterfall r tr l s).cash := by
  intro l
  induction l with
  | nil => intro s h; simpa [waterfall] using h
  | cons p rest ih =>
    intro s hs
    obtain ⟨t, rate⟩ := p
    simp only [waterfall]
    have hamt : min (s.taxable - t) (min (tr - s.total) s.cash) ≤ s.cash :=
      le_trans (min_le_right _ _) (min_le_right _ _)
    split_ifs with h1 h2 h3 h4 h5
    · exact ih s hs
    · dsimp only
      linarith
    · apply ih
      dsimp only
      linarith
    · exact hs
    · exact ih s hs
    · exact ih s hs

/-- The waterfall only adds to the contribution total. -/
theorem waterfall_total_mono (r tr : ℚ) :
    ∀ (l : List (ℚ × ℚ)) (s : WRes), s.total ≤ (waterfall r tr l s).total := by
  intro l
  induction l with
  | nil => intro s; simp [waterfall]
  | cons p rest ih =>
    intro s
    obtain ⟨t, rate⟩ := p
    simp only [waterfall]
    split_ifs with h1 h2 h3 h4 h5
    · exact ih s
    · dsimp only
      linarith
    · refine le_trans ?_ (ih _)
      dsimp only
      linarith
    · exact le_refl _
    · exact ih s
    · exact ih s

/-- On a nonempty schedule the lookup returns one of the schedule rates. -/
theorem get_marginal_tax_rate_mem (income : ℚ) :
    ∀ (l : List (ℚ × ℚ)), l ≠ [] → get_marginal_tax_rate income l ∈ l.map Prod.snd
  | [], h => absurd rfl h
  | [p], _ => by
    simp only [get_marginal_tax_rate, List.map_cons, List.map_nil]
    split_ifs <;> exact List.mem_singleton.mpr rfl
  | p :: q :: rest, _ => by
    simp only [get_marginal_tax_rate, List.map_cons]
    split_ifs with h
    · exact List.mem_cons_self _ _
    · refine List.mem_cons_of_mem _ ?_
      have := get_marginal_tax_rate_mem income (q :: rest) (List.cons_ne_nil q rest)
      simpa using this

/-- If the schedule's rates are descending along the list, the lookup result
is monotone in the income. -/
theorem get_marginal_tax_rate_mono (income1 income2 : ℚ) (h12 : income1 ≤ income2) :
    ∀ (l : List (ℚ × ℚ)), (l.Pairwise fun p q => q.2 ≤ p.2) →
      get_marginal_tax_rate income1 l ≤ get_marginal_tax_rate income2 l
  | [], _ => le_refl _
  | [p], _ => by
    simp only [get_marginal_tax_rate]
    split_ifs <;> exact le_refl _
  | p :: q :: rest, hp => by
    rcases List.pairwise_cons.mp hp with ⟨hhead, htail⟩
    simp only [get_marginal_tax_rate]
    split_ifs with hI1 hI2 hI2
    · exact le_refl _
    · exact absurd hI1 (not_lt.mpr (h12.trans (not_lt.mp hI2)))
    · have hm := get_marginal_tax_rate_mem income1 (q :: rest) (List.cons_ne_nil q rest)
      rcases List.mem_map.mp hm with ⟨a, ha, hae⟩
      rw [← hae]
      exact hhead a ha
    · exact get_marginal_tax_rate_mono income1 income2 h12 (q :: rest) htail

/-- The clamp at the end of the strategy step never exceeds the room snapshot. -/
theorem clamp_le_left (w tr : ℚ) : (if w > tr then tr else w) ≤ tr := by
  split_ifs with h
  · exact le_refl _
  · exact not_lt.mp h

/-- Starting the waterfall from a base contribution and a nonnegative cash
budget, the clamped total stays within base plus budget. -/
theorem waterfall_clamp_cash (r tr : ℚ) (b : List (ℚ × ℚ)) (c0 tax0 ub C : ℚ)
    (hc0 : 0 ≤ c0) (hC : ub + c0 ≤ C) :
    (if (waterfall r tr b (WRes.mk c0 tax0 ub 0)).total > tr then tr
     else (waterfall r tr b (WRes.mk c0 tax0 ub 0)).total) ≤ C := by
  have hsum := waterfall_total_add_cash r tr b (WRes.mk c0 tax0 ub 0)
  have hcash := waterfall_cash_nonneg r tr b (WRes.mk c0 tax0 ub 0) (by dsimp only; exact hc0)
  dsimp only at hsum
  split_ifs with h
  · linarith
  · linarith

/-- With a nonnegative base contribution and nonnegative room snapshot, the
room left after the clamp sits between 0 and the snapshot. -/
theorem waterfall_clamp_room (r tr : ℚ) (b : List (ℚ × ℚ)) (c0 tax0 ub : ℚ)
    (hub : 0 ≤ ub) (htr : 0 ≤ tr) :
    0 ≤ tr - (if (waterfall r tr b (WRes.mk c0 tax0 ub 0)).total > tr then tr
              else (waterfall r tr b (WRes.mk c0 tax0 ub 0)).total) ∧
    tr - (if (waterfall r tr b (WRes.mk c0 tax0 ub 0)).total > tr then tr
          else (waterfall r tr b (WRes.mk c0 tax0 ub 0)).total) ≤ tr := by
  have hmono := waterfall_total_mono r tr b (WRes.mk c0 tax0 ub 0)
  dsimp only at hmono
  split_ifs with h
  · constructor <;> linarith
  · constructor <;> linarith

/-- The income update keeps incomes nonnegative when the wage and growth
inputs are sensible. -/
theorem incomeUpdate_nonneg (cfg : Config) (y : ℤ) (prev : ℚ)
    (h4 : 0 ≤ cfg.expected_full_time_wage) (h5 : 0 ≤ 1 + cfg.wage_growth_rate)
    (hprev : 0 ≤ prev) : 0 ≤ incomeUpdate cfg y prev := by
  unfold incomeUpdate
  split_ifs
  · exact h4
  · exact mul_nonneg hprev h5
  · exact hprev

/-- New room is nonnegative for nonnegative income (the indexed cap is
positive). -/
theorem newRoom_nonneg (y : ℤ) (income : ℚ) (h : 0 ≤ income) : 0 ≤ newRoom y income := by
  unfold newRoom
  dsimp only
  split_ifs with hgt
  · have hpos : (0:ℚ) < 33810 * (1 + 0.02 : ℚ) ^ (y - 2026) := by positivity
    linarith
  · exact mul_nonneg h (by norm_num)

/-- The carried state income equals the year's updated income. -/
theorem stepYear_fst_income (cfg : Config) (b : List (ℚ × ℚ)) (r : ℚ) (y : ℤ) (st : SimState) :
    (stepYear cfg b r y st).1.current_income_sim = incomeUpdate cfg y st.current_income_sim := rfl

/-- The record income equals the year's updated income. -/
theorem stepYear_snd_income (cfg : Config) (b : List (ℚ × ℚ)) (r : ℚ) (y : ℤ) (st : SimState) :
    (stepYear cfg b r y st).2.income = incomeUpdate cfg y st.current_income_sim := rfl

/-- The record year field is the loop year. -/
theorem stepYear_snd_year (cfg : Config) (b : List (ℚ × ℚ)) (r : ℚ) (y : ℤ) (st : SimState) :
    (stepYear cfg b r y st).2.year = y := rfl

/-- The carried accumulated room equals the reported room left. -/
theorem stepYear_fst_room (cfg : Config) (b : List (ℚ × ℚ)) (r : ℚ) (y : ℤ) (st : SimState) :
    (stepYear cfg b r y st).1.accumulated_room = (stepYear cfg b r y st).2.roomLeft := rfl

/-- The per-year contribution bounds, at the level of a single step: the
clamped total stays within the room snapshot and within the cash budget
income times savings_rate_gross, provided the match rate does not exceed the
savings rate and the year's income is nonnegative. -/
theorem stepYear_contrib_bounds (cfg : Config) (b : List (ℚ × ℚ)) (r : ℚ)
    (y : ℤ) (st : SimState)
    (h2 : cfg.employer_match_rate ≤ cfg.savings_rate_gross)
    (hinc : 0 ≤ incomeUpdate cfg y st.current_income_sim) :
    (stepYear cfg b r y st).2.totalUserContribution ≤
        (stepYear cfg b r y st).2.totalRoomAvailable ∧
      (stepYear cfg b r y st).2.totalUserContribution ≤
        (stepYear cfg b r y st).2.income * cfg.savings_rate_gross := by
  have hmm := mul_le_mul_of_nonneg_left h2 hinc
  constructor
  · exact clamp_le_left _ _
  · refine waterfall_clamp_cash _ _ _ _ _ _ _ ?_ ?_
    · linarith
    · rw [stepYear_snd_income]
      ring_nf
      linarith

/-- The per-year room bounds, at the level of a single step: room left stays
between 0 and the room snapshot, provided the year's income, the match rate
and the opening accumulated room are nonnegative. -/
theorem stepYear_room_bounds (cfg : Config) (b : List (ℚ × ℚ)) (r : ℚ)
    (y : ℤ) (st : SimState)
    (h1 : 0 ≤ cfg.employer_match_rate)
    (hacc : 0 ≤ st.accumulated_room)
    (hinc : 0 ≤ incomeUpdate cfg y st.current_income_sim) :
    0 ≤ (stepYear cfg b r y st).2.roomLeft ∧
      (stepYear cfg b r y st).2.roomLeft ≤ (stepYear cfg b r y st).2.totalRoomAvailable := by
  refine waterfall_clamp_room _ _ _ _ _ _ ?_ ?_
  · exact mul_nonneg hinc h1
  · have := newRoom_nonneg y (incomeUpdate cfg y st.current_income_sim) hinc
    linarith

/-- Loop-level contribution bounds: every record produced from a state with
nonnegative income respects room and cash, under the step hypotheses. -/
theorem runYears_contrib_bounds (cfg : Config) (b : List (ℚ × ℚ)) (r : ℚ)
    (h2 : cfg.employer_match_rate ≤ cfg.savings_rate_gross)
    (h4 : 0 ≤ cfg.expected_full_time_wage) (h5 : 0 ≤ 1 + cfg.wage_growth_rate) :
    ∀ (n : ℕ) (y : ℤ) (st : SimState), 0 ≤ st.current_income_sim →
      ∀ rec ∈ runYears cfg b r n y st,
        rec.totalUserContribution ≤ rec.totalRoomAvailable ∧
          rec.totalUserContribution ≤ rec.income * cfg.savings_rate_gross := by
  intro n
  induction n with
  | zero => intro y st _ rec hrec; simp [runYears] at hrec
  | succ n ih =>
    intro y st hst rec hrec
    have hinc : 0 ≤ incomeUpdate cfg y st.current_income_sim :=
      incomeUpdate_nonneg cfg y st.current_income_sim h4 h5 hst
    simp only [runYears] at hrec
    rcases List.mem_cons.mp hrec with h | h
    · subst h
      exact stepYear_contrib_bounds cfg b r y st h2 hinc
    · refine ih (y + 1) (stepYear cfg b r y st).1 ?_ rec h
      rw [stepYear_fst_income]
      exact hinc

/-- Loop-level room bounds: from a state with nonnegative income and
nonnegative accumulated room, every record has room left between 0 and the
room snapshot. -/
theorem runYears_room_bounds (cfg : Config) (b : List (ℚ × ℚ)) (r : ℚ)
    (h1 : 0 ≤ cfg.employer_match_rate)
    (h4 : 0 ≤ cfg.expected_full_time_wage) (h5 : 0 ≤ 1 + cfg.wage_growth_rate) :
    ∀ (n : ℕ) (y : ℤ) (st : SimState),
      0 ≤ st.current_income_sim → 0 ≤ st.accumulated_room →
      ∀ rec ∈ runYears cfg b r n y st,
        0 ≤ rec.roomLeft ∧ rec.roomLeft ≤ rec.totalRoomAvailable := by
  intro n
  induction n with
  | zero => intro y st _ _ rec hrec; simp [runYears] at hrec
  | succ n ih =>
    intro y st hst hacc rec hrec
    have hinc : 0 ≤ incomeUpdate cfg y st.current_income_sim :=
      incomeUpdate_nonneg cfg y st.current_income_sim h4 h5 hst
    have hstep := stepYear_room_bounds cfg b r y st h1 hacc hinc
    simp only [runYears] at hrec
    rcases List.mem_cons.mp hrec with h | h
    · subst h
      exact hstep
    · refine ih (y + 1) (stepYear cfg b r y st).1 ?_ ?_ rec h
      · rw [stepYear_fst_income]
        exact hinc
      · rw [stepYear_fst_room]
        exact hstep.1

/-- Loop-level income preservation: as long as the loop year is before
full_time_start_year, the income stays at its initial value, so every record
dated before full_time_start_year reports that initial income. -/
theorem runYears_income_before (cfg : Config) (b : List (ℚ × ℚ)) (r : ℚ) :
    ∀ (n : ℕ) (y : ℤ) (st : SimState),
      (st.current_income_sim = cfg.current_annual_income ∨ cfg.full_time_start_year ≤ y) →
      ∀ rec ∈ runYears cfg b r n y st,
        rec.year < cfg.full_time_start_year → rec.income = cfg.current_annual_income := by
  intro n
  induction n with
  | zero => intro y st _ rec hrec; simp [runYears] at hrec
  | succ n ih =>
    intro y st hdisj rec hrec hy
    simp only [runYears] at hrec
    rcases List.mem_cons.mp hrec with h | h
    · subst h
      rw [stepYear_snd_year] at hy
      rw [stepYear_snd_income]
      unfold incomeUpdate
      rw [if_neg (not_le.mpr hy)]
      rcases hdisj with hval | hge
      · exact hval
      · exact absurd hge (not_le.mpr hy)
    · refine ih (y + 1) (stepYear cfg b r y st).1 ?_ rec h hy
      by_cases hcase : cfg.full_time_start_year ≤ y
      · exact Or.inr (hcase.trans (by linarith))
      · refine Or.inl ?_
        rw [stepYear_fst_income]
        unfold incomeUpdate
        rw [if_neg hcase]
        rcases hdisj with hval | hge
        · exact hval
        · exact absurd hge hcase

/-- Loop-level income switch: the record dated exactly full_time_start_year
reports the expected full-time wage, whatever the carried state. -/
theorem runYears_income_at_ft (cfg : Config) (b : List (ℚ × ℚ)) (r : ℚ) :
    ∀ (n : ℕ) (y : ℤ) (st : SimState), ∀ rec ∈ runYears cfg b r n y st,
      rec.year = cfg.full_time_start_year → rec.income = cfg.expected_full_time_wage := by
  intro n
  induction n with
  | zero => intro y st rec hrec; simp [runYears] at hrec
  | succ n ih =>
    intro y st rec hrec hy
    simp only [runYears] at hrec
    rcases List.mem_cons.mp hrec with h | h
    · subst h
      rw [stepYear_snd_year] at hy
      rw [stepYear_snd_income]
      unfold incomeUpdate
      rw [if_pos hy.ge, if_pos hy]
    · exact ih (y + 1) (stepYear cfg b r y st).1 rec h hy

/-- Claim C5: for all incomes 0 ≤ I1 ≤ I2, the marginal-rate lookup against
the combined schedule built from the federal and Quebec tables returns a rate
that appears in the schedule, and the returned rate is non-decreasing in the
income. -/
theorem marginal_rate_mem_mono (income1 income2 : ℚ)
    (_h0 : 0 ≤ income1) (h12 : income1 ≤ income2) :
    get_marginal_tax_rate income1 get_combined_brackets ∈
        get_combined_brackets.map Prod.snd ∧
      get_marginal_tax_rate income1 get_combined_brackets ≤
        get_marginal_tax_rate income2 get_combined_brackets :=
  ⟨get_marginal_tax_rate_mem income1 get_combined_brackets (by decide),
   get_marginal_tax_rate_mono income1 income2 h12 get_combined_brackets (by decide)⟩

/-- Witness for claim C5 at the concrete incomes 1000 and 60000. -/
theorem marginal_rate_mem_mono_witness :
    get_marginal_tax_rate 1000 get_combined_brackets ∈
        get_combined_brackets.map Prod.snd ∧
      get_marginal_tax_rate 1000 get_combined_brackets ≤
        get_marginal_tax_rate 60000 get_combined_brackets :=
  marginal_rate_mem_mono 1000 60000 (by norm_num) (by norm_num)

/-- Claim C6: every entry of the combined schedule stores the rate of the
highest-threshold federal bracket applicable at the entry threshold, abated
by 16.5 percent, plus the rate of the highest-threshold Quebec bracket
applicable there. -/
theorem combined_rate_formula :
    ∀ p ∈ get_combined_brackets,
      p.2 = highestApplicableRate fed_brackets p.1 * (1 - 0.165) +
        highestApplicableRate qc_brackets p.1 := by decide

/-- Witness for claim C6 at the schedule entry with threshold 54345. -/
theorem combined_rate_formula_witness :
    ((54345 : ℚ), (0.3069 : ℚ)).2 =
      highestApplicableRate fed_brackets ((54345 : ℚ), (0.3069 : ℚ)).1 * (1 - 0.165) +
        highestApplicableRate qc_brackets ((54345 : ℚ), (0.3069 : ℚ)).1 :=
  combined_rate_formula (54345, 0.3069) (by decide)

/-- Claim C7: the combined-schedule thresholds are exactly the union of the
two source tables' thresholds, with no duplicates, sorted strictly
descending, and the last entry has threshold 0. -/
theorem combined_thresholds_exact :
    (∀ x ∈ fed_brackets.map Prod.fst ++ qc_brackets.map Prod.fst,
        x ∈ get_combined_brackets.map Prod.fst) ∧
      (∀ x ∈ get_combined_brackets.map Prod.fst,
        x ∈ fed_brackets.map Prod.fst ∨ x ∈ qc_brackets.map Prod.fst) ∧
      (get_combined_brackets.map Prod.fst).Pairwise (fun a b => a ≠ b) ∧
      (get_combined_brackets.map Prod.fst).Pairwise (fun a b => b < a) ∧
      (get_combined_brackets.map Prod.fst).getLast? = some 0 := by decide

/-- Claim C1 (amended): with the 2026 tables and abatement 0.165, the
marginal-rate lookup at 60000 returns 0.361175, which is the combined rate
of the bracket with threshold 58523 (0.205 * 0.835 + 0.19), not the rate of
the 54345 bracket; and every configuration with retirement_income_target
60000 runs its whole simulation against this retirement_tax_rate. -/
theorem retirement_rate_is_58523_rate :
    get_marginal_tax_rate 60000 get_combined_brackets = 0.361175 ∧
      ((58523 : ℚ), (0.361175 : ℚ)) ∈ get_combined_brackets ∧
      ∀ cfg : Config, cfg.retirement_income_target = 60000 →
        retirement_tax_rate cfg = 0.361175 ∧
          simRecords cfg = runYears cfg get_combined_brackets 0.361175 (numYears cfg)
            cfg.current_year (initState cfg) := by
  refine ⟨by decide, by decide, ?_⟩
  intro cfg h
  have hr : retirement_tax_rate cfg = 0.361175 := by
    unfold retirement_tax_rate
    rw [h]
    decide
  exact ⟨hr, by unfold simRecords; rw [hr]⟩

/-- Witness for claim C1 at the end-to-end scenario configuration. -/
theorem retirement_rate_is_58523_rate_witness :
    retirement_tax_rate cfg85 = 0.361175 ∧
      simRecords cfg85 = runYears cfg85 get_combined_brackets 0.361175 (numYears cfg85)
        cfg85.current_year (initState cfg85) :=
  retirement_rate_is_58523_rate.2.2 cfg85 (by decide)

/-- Counterexample to claim C1 as stated: the lookup at 60000 returns neither
0.26 * 0.835 + 0.19 = 0.4071 nor the rate the schedule stores at threshold
54345, which is 0.3069. -/
theorem retirement_rate_not_54345_rate :
    get_marginal_tax_rate 60000 get_combined_brackets ≠ 0.4071 ∧
      ((54345 : ℚ), (0.3069 : ℚ)) ∈ get_combined_brackets ∧
      get_marginal_tax_rate 60000 get_combined_brackets ≠ 0.3069 := by decide

/-- Claim C9 (amended): in the end-to-end scenario the lookup at 85000
returns the 58523-bracket rate 0.361175, which equals (rather than sits
below) retirement_tax_rate; consequently every simulated year has extra
contribution 0, strategy Match + Hold, and user contribution 4250, both raw
and as reported. -/
theorem scenario85_match_hold (rec : YearRecord) (hrec : rec ∈ simRecords cfg85) :
    get_marginal_tax_rate 85000 get_combined_brackets = 0.361175 ∧
      get_marginal_tax_rate 85000 get_combined_brackets = retirement_tax_rate cfg85 ∧
      rec.extraContribution = 0 ∧
      rec.strategy = "Match + Hold" ∧
      rec.totalUserContribution = 4250 ∧
      (reportRow rec).contribution = 4250 := by
  have hall : ∀ r ∈ simRecords cfg85,
      r.extraContribution = 0 ∧ r.strategy = "Match + Hold" ∧
        r.totalUserContribution = 4250 ∧ (reportRow r).contribution = 4250 := by decide
  rcases hall rec hrec with ⟨h1, h2, h3, h4⟩
  exact ⟨by decide, by decide, h1, h2, h3, h4⟩

/-- Witness for claim C9 at the first simulated year of the scenario. -/
theorem scenario85_match_hold_witness :
    get_marginal_tax_rate 85000 get_combined_brackets = 0.361175 ∧
      get_marginal_tax_rate 85000 get_combined_brackets = retirement_tax_rate cfg85 ∧
      ((simRecords cfg85).get ⟨0, by decide⟩).extraContribution = 0 ∧
      ((simRecords cfg85).get ⟨0, by decide⟩).strategy = "Match + Hold" ∧
      ((simRecords cfg85).get ⟨0, by decide⟩).totalUserContribution = 4250 ∧
      (reportRow ((simRecords cfg85).get ⟨0, by decide⟩)).contribution = 4250 :=
  scenario85_match_hold ((simRecords cfg85).get ⟨0, by decide⟩) (List.get_mem _ _ _)

/-- Counterexample to claim C9 as stated: the rate at 85000 is not strictly
below the retirement rate looked up at 60000 (the two are equal). -/
theorem rate85000_not_below_retirement :
    ¬ (get_marginal_tax_rate 85000 get_combined_brackets <
        get_marginal_tax_rate 60000 get_combined_brackets) := by decide

/-- Claim C2 (code bug): the match itself is income * employer_match_rate,
but the reported Employer Match field is round(match * 0.05): at the
script's own configuration the first year's match is 1250 = 25000 * 0.05
while the reported field is 62. -/
theorem employer_match_reported_scaled :
    ((simRecords cfgScript).head?).map (fun r => r.matchContribution) = some 1250 ∧
      ((simRecords cfgScript).head?).map
          (fun r => r.income * cfgScript.employer_match_rate) = some 1250 ∧
      ((optimize_rrsp_strategy cfgScript).head?).map
          (fun row => row.employerMatch) = some 62 ∧
      (62 : ℚ) ≠ 1250 := by decide

/-- Claim C3 (amended): the simulator performs no configuration validation;
for every configuration, valid or invalid, it returns the full sequence of
one reported row per year of the simulation range. -/
theorem simulator_never_rejects (cfg : Config) :
    (optimize_rrsp_strategy cfg).length =
      (cfg.full_time_start_year + 10 + 1 - cfg.current_year).toNat := by
  simp [optimize_rrsp_strategy, simRecords, numYears, runYears_length]

/-- Counterexample to claim C3 as stated: zero savings_rate_gross is an
invalid configuration by the claim, yet the simulator still produces its
year records instead of rejecting at entry. -/
theorem invalid_config_still_produces_records :
    cfgBad.savings_rate_gross = 0 ∧ optimize_rrsp_strategy cfgBad ≠ [] := by decide

/-- Claim C4 (amended): for every configuration with nonnegative starting
income and full-time wage, wage growth at least -1, and employer match rate
at most the gross savings rate, every simulated year's total user
contribution is at most that year's room snapshot and at most that year's
cash budget income * savings_rate_gross. -/
theorem contribution_within_room_and_cash (cfg : Config)
    (h2 : cfg.employer_match_rate ≤ cfg.savings_rate_gross)
    (h3 : 0 ≤ cfg.current_annual_income)
    (h4 : 0 ≤ cfg.expected_full_time_wage)
    (h5 : 0 ≤ 1 + cfg.wage_growth_rate)
    (rec : YearRecord) (hrec : rec ∈ simRecords cfg) :
    rec.totalUserContribution ≤ rec.totalRoomAvailable ∧
      rec.totalUserContribution ≤ rec.income * cfg.savings_rate_gross :=
  runYears_contrib_bounds cfg get_combined_brackets (retirement_tax_rate cfg) h2 h4 h5
    (numYears cfg) cfg.current_year (initState cfg) h3 rec hrec

/-- Witness for claim C4 at the first simulated year of the scenario
configuration. -/
theorem contribution_within_room_and_cash_witness :
    ((simRecords cfg85).get ⟨0, by decide⟩).totalUserContribution ≤
        ((simRecords cfg85).get ⟨0, by decide⟩).totalRoomAvailable ∧
      ((simRecords cfg85).get ⟨0, by decide⟩).totalUserContribution ≤
        ((simRecords cfg85).get ⟨0, by decide⟩).income * cfg85.savings_rate_gross :=
  contribution_within_room_and_cash cfg85 (by decide) (by decide) (by decide) (by decide)
    ((simRecords cfg85).get ⟨0, by decide⟩) (List.get_mem _ _ _)

/-- Counterexample to claim C4 as stated: with a savings rate of 1 percent
and the default 5 percent match, the mandatory match contribution alone
exceeds the year's cash budget, so the cash bound fails. -/
theorem contribution_exceeds_cash_example :
    ¬ ∀ rec ∈ simRecords cfgLowSavings,
        rec.totalUserContribution ≤ rec.totalRoomAvailable ∧
          rec.totalUserContribution ≤ rec.income * cfgLowSavings.savings_rate_gross := by
  decide

/-- Claim C8 (amended): for every configuration with the earning start no
later than the current year, nonnegative match rate, nonnegative starting
income and full-time wage, and wage growth at least -1, the carried-forward
room after each year's update lies between 0 and that year's room
snapshot. -/
theorem room_left_within_snapshot (cfg : Config)
    (h0 : cfg.start_earning_year ≤ cfg.current_year)
    (h1 : 0 ≤ cfg.employer_match_rate)
    (h3 : 0 ≤ cfg.current_annual_income)
    (h4 : 0 ≤ cfg.expected_full_time_wage)
    (h5 : 0 ≤ 1 + cfg.wage_growth_rate)
    (rec : YearRecord) (hrec : rec ∈ simRecords cfg) :
    0 ≤ rec.roomLeft ∧ rec.roomLeft ≤ rec.totalRoomAvailable :=
  runYears_room_bounds cfg get_combined_brackets (retirement_tax_rate cfg) h1 h4 h5
    (numYears cfg) cfg.current_year (initState cfg) h3
    (by
      show 0 ≤ 15000 * (0.18 : ℚ) * ((cfg.current_year - cfg.start_earning_year : ℤ) : ℚ)
      have hc : (0 : ℚ) ≤ ((cfg.current_year - cfg.start_earning_year : ℤ) : ℚ) := by
        exact_mod_cast sub_nonneg.mpr h0
      have h27 : (0 : ℚ) ≤ 15000 * (0.18 : ℚ) := by norm_num
      exact mul_nonneg h27 hc)
    rec hrec

/-- Witness for claim C8 at the first simulated year of the scenario
configuration. -/
theorem room_left_within_snapshot_witness :
    0 ≤ ((simRecords cfg85).get ⟨0, by decide⟩).roomLeft ∧
      ((simRecords cfg85).get ⟨0, by decide⟩).roomLeft ≤
        ((simRecords cfg85).get ⟨0, by decide⟩).totalRoomAvailable :=
  room_left_within_snapshot cfg85 (by decide) (by decide) (by decide) (by decide) (by decide)
    ((simRecords cfg85).get ⟨0, by decide⟩) (List.get_mem _ _ _)

/-- Counterexample to claim C8 as stated: with a negative income the room
snapshot itself goes negative while the room left is clamped to 0, so the
carried room exceeds the snapshot. -/
theorem room_left_exceeds_snapshot_example :
    ¬ ∀ rec ∈ simRecords cfgNeg,
        0 ≤ rec.roomLeft ∧ rec.roomLeft ≤ rec.totalRoomAvailable := by decide

/-- Claim C10: every simulated year dated strictly before
full_time_start_year reports exactly the initial current_annual_income (the
growth rate is never applied before the full-time switch), and the year
dated exactly full_time_start_year reports the expected full-time wage, so
growth only compounds from the second full-time year onward. -/
theorem income_before_full_time (cfg : Config) (rec : YearRecord)
    (hrec : rec ∈ simRecords cfg) :
    (rec.year < cfg.full_time_start_year → rec.income = cfg.current_annual_income) ∧
      (rec.year = cfg.full_time_start_year → rec.income = cfg.expected_full_time_wage) :=
  ⟨fun hy => runYears_income_before cfg get_combined_brackets (retirement_tax_rate cfg)
      (numYears cfg) cfg.current_year (initState cfg) (Or.inl rfl) rec hrec hy,
    fun hy => runYears_income_at_ft cfg get_combined_brackets (retirement_tax_rate cfg)
      (numYears cfg) cfg.current_year (initState cfg) rec hrec hy⟩

/-- Witness for claim C10 at the first simulated year of the script
configuration, which is dated 2026, before the 2030 full-time start. -/
theorem income_before_full_time_witness :
    ((simRecords cfgScript).get ⟨0, by decide⟩).income = cfgScript.current_annual_income :=
  (income_before_full_time cfgScript ((simRecords cfgScript).get ⟨0, by decide⟩)
      (List.get_mem _ _ _)).1 (by decide)
